import Mathlib

/-!
Shallow embedding of the whatsapp-sistema-coringas HTTP service.

The repository contains two main variants of the server:
  * src/src/index.js        — the caching variant: a qr event stores the code
    in qrCodeData together with qrCodeExpiration = Date.now() + 90000, and
    GET /whatsapp/qrcode serves the cached value, re-running the client start
    routine when the cache is empty or expired;
  * src/unnamed/part_001    — the promise variant: GET /whatsapp/qrcode builds
    a promise that races the next qr event against a 30000 ms timer
    (generateQRCode), returning 400 when the client is already connected.
Both variants share the same POST /send-message route body.

JSON response objects are embedded as a record over the fixed key universe
used by the routes; a field holding none models an absent key.  JavaScript
values relevant to request bodies are embedded as JSVal with the JavaScript
truthiness test.  Timestamps are milliseconds as Nat.
-/

/-- JavaScript values that can appear in a JSON request body field. -/
inductive JSVal where
  | jsNull : JSVal
  | jsBool : Bool → JSVal
  | jsNum : Int → JSVal
  | jsStr : String → JSVal
deriving DecidableEq, Repr

/-- JavaScript truthiness of an optional body field: a missing field
(undefined), null, false, 0 and the empty string are falsy. -/
def truthy : Option JSVal → Bool
  | none => false
  | some JSVal.jsNull => false
  | some (JSVal.jsBool b) => b
  | some (JSVal.jsNum n) => n != 0
  | some (JSVal.jsStr s) => s != ""

/-- JSON response body over the fixed key universe of the routes;
none models an absent key. -/
structure JsonResp where
  status : Option String := none
  qrcode : Option String := none
  expiresAt : Option Nat := none
  lastUpdate : Option Nat := none
  error : Option String := none
  success : Option Bool := none
  message : Option String := none
  details : Option String := none
deriving DecidableEq, Repr

/-- An HTTP response: status code and JSON body. -/
structure HttpOut where
  code : Nat
  body : JsonResp
deriving DecidableEq, Repr

/-! ### String helpers: the JavaScript includes test used on recipients -/

/-- Whether the first list is a prefix of the second, by character equality. -/
def isPrefixList : List Char → List Char → Bool
  | [], _ => true
  | _ :: _, [] => false
  | a :: as, b :: bs => a == b && isPrefixList as bs

/-- Whether sub occurs as a contiguous sublist somewhere in the second list. -/
def containsSub (sub : List Char) : List Char → Bool
  | [] => isPrefixList sub []
  | a :: t => isPrefixList sub (a :: t) || containsSub sub t

/-- Embedding of the JavaScript call s.includes(pat): substring containment. -/
def jsIncludes (s pat : String) : Bool :=
  containsSub pat.data s.data

/-- Embeds the recipient normalization of both /send-message variants:
number.includes of the literal at-c-dot-us decides between pass-through and
appending the suffix. -/
def formattedNumber (number : String) : String :=
  if jsIncludes number "@c.us" then number else number ++ "@c.us"

/-! ### Caching variant (src/src/index.js): state and qr handler -/

/-- The fixed qr validity window of the caching variant, in milliseconds. -/
def QR_CODE_EXPIRATION_TIME : Nat := 90000

/-- Mutable state of the caching variant: the cached qr string, its expiry
timestamp, and whether the client is connected (client.info present). -/
structure CacheState where
  qrCodeData : Option String
  qrCodeExpiration : Option Nat
  connected : Bool
deriving DecidableEq, Repr

/-- Embeds the qr event handler of src/src/index.js lines 79 to 86:
stores the code and sets the expiry to now plus the 90000 ms window. -/
def qrHandler (s : CacheState) (qr : String) (now : Nat) : CacheState :=
  { s with qrCodeData := some qr,
           qrCodeExpiration := some (now + QR_CODE_EXPIRATION_TIME) }

/-- JavaScript falsiness of the cached qr string: null or empty. -/
def jsFalsyStr : Option String → Bool
  | none => true
  | some s => s == ""

/-- JavaScript falsiness of the cached expiry: null or zero. -/
def jsFalsyNum : Option Nat → Bool
  | none => true
  | some n => n == 0

/-- JavaScript numeric coercion of the cached expiry: null coerces to 0. -/
def jsNumVal : Option Nat → Nat
  | none => 0
  | some n => n

/-- Embeds the guard of src/src/index.js line 127: the cache is treated as
absent when the qr is falsy, the expiry is falsy, or now exceeds the expiry. -/
def staleCheck (s : CacheState) (now : Nat) : Bool :=
  jsFalsyStr s.qrCodeData || jsFalsyNum s.qrCodeExpiration ||
    decide (jsNumVal s.qrCodeExpiration < now)

/-- Result of the caching variant qrcode route: the HTTP response, the state
after the call, and whether client.initialize was invoked. -/
structure RouteCacheOut where
  http : HttpOut
  finalState : CacheState
  initCalled : Bool
deriving DecidableEq, Repr

/-- Embeds GET /whatsapp/qrcode of src/src/index.js lines 116 to 153.
Connected: 200 with status connected.  Otherwise, a stale or absent cache is
cleared and the client start routine re-run, then the (possibly cleared)
cache is served with status disconnected; expiresAt renders the cleared
expiry as the epoch, mirroring new Date of a null timestamp. -/
def whatsappQrcodeRouteIdx (s : CacheState) (now : Nat) : RouteCacheOut :=
  if s.connected then
    ⟨⟨200, { status := some "connected", lastUpdate := some now }⟩, s, false⟩
  else
    let stale := staleCheck s now
    let s2 := if stale then
        { s with qrCodeData := none, qrCodeExpiration := none }
      else s
    ⟨⟨200, { status := some "disconnected", qrcode := s2.qrCodeData,
             expiresAt := some (jsNumVal s2.qrCodeExpiration),
             lastUpdate := some now }⟩, s2, stale⟩

/-! ### Promise variant (src/unnamed/part_001): generateQRCode and its route -/

/-- Settlement of the promise built by generateQRCode. -/
inductive GenOutcome where
  | resolvedQR : String → Nat → GenOutcome
  | rejTimeout : GenOutcome
  | rejAlreadyConnected : GenOutcome
  | rejInitError : String → GenOutcome
deriving DecidableEq, Repr

/-- Result of one generateQRCode call: how the promise settled, whether the
qr listener was removed again, and whether the client start routine ran. -/
structure GenResult where
  outcome : GenOutcome
  listenerRemoved : Bool
  initAttempted : Bool
deriving DecidableEq, Repr

/-- The race at the heart of generateQRCode: the first qr event, arriving
t milliseconds after the call, against the 30000 ms timer.  Both the resolve
path and the timeout path remove the qr listener. -/
def qrRace (qrEvent : Option (Nat × String)) (initAttempted : Bool) : GenResult :=
  match qrEvent with
  | some (t, qr) =>
      if t < 30000 then ⟨GenOutcome.resolvedQR qr t, true, initAttempted⟩
      else ⟨GenOutcome.rejTimeout, true, initAttempted⟩
  | none => ⟨GenOutcome.rejTimeout, true, initAttempted⟩

/-- Embeds generateQRCode of src/unnamed/part_001 lines 104 to 143.
When the client flag is still unset the start routine runs first (a start
failure rejects with its message, removing the listener); with the flag set
and the client connected the promise rejects immediately; otherwise the qr
event races the 30 second timer.  initFails carries the start failure
message when the start routine would throw. -/
def generateQRCode (clientInitialized connected : Bool) (initFails : Option String)
    (qrEvent : Option (Nat × String)) : GenResult :=
  if clientInitialized = false then
    match initFails with
    | some m => ⟨GenOutcome.rejInitError m, true, true⟩
    | none => qrRace qrEvent true
  else if connected = true then
    ⟨GenOutcome.rejAlreadyConnected, true, false⟩
  else
    qrRace qrEvent false

/-- Result of the promise variant qrcode route: HTTP response, connectivity
after the call, whether a pairing request (listener registration) was
created, and whether that listener was removed again (true when none was
ever registered). -/
structure Route001Out where
  http : HttpOut
  connectedAfter : Bool
  calledGenerate : Bool
  listenerRemoved : Bool
deriving DecidableEq, Repr

/-- Embeds GET /whatsapp/qrcode of src/unnamed/part_001 lines 146 to 166.
A connected client yields 400 without touching the provider; otherwise the
route awaits generateQRCode, serving a resolved qr as 200 with status
connecting and mapping any rejection to 500 with the rejection message. -/
def whatsappQrcodeRoute001 (clientInitialized connected : Bool)
    (initFails : Option String) (qrEvent : Option (Nat × String)) (now : Nat) :
    Route001Out :=
  if connected then
    ⟨⟨400, { status := some "error", error := some "WhatsApp já está conectado" }⟩,
      connected, false, true⟩
  else
    let g := generateQRCode clientInitialized connected initFails qrEvent
    match g.outcome with
    | GenOutcome.resolvedQR qr _ =>
        ⟨⟨200, { status := some "connecting", qrcode := some qr,
                 lastUpdate := some now }⟩, connected, true, g.listenerRemoved⟩
    | GenOutcome.rejTimeout =>
        ⟨⟨500, { status := some "error",
                 error := some "Timeout ao gerar QR Code" }⟩, connected, true,
          g.listenerRemoved⟩
    | GenOutcome.rejAlreadyConnected =>
        ⟨⟨500, { status := some "error",
                 error := some "WhatsApp já está conectado" }⟩, connected, true,
          g.listenerRemoved⟩
    | GenOutcome.rejInitError m =>
        ⟨⟨500, { status := some "error", error := some m }⟩, connected, true,
          g.listenerRemoved⟩

/-! ### Shared /send-message route (identical in both variants) -/

/-- Outcome of the provider send capability for one call. -/
inductive SendOutcome where
  | ok : SendOutcome
  | fail : String → SendOutcome
deriving DecidableEq, Repr

/-- Result of the send route: HTTP response, state after the call, whether
the provider send was invoked, and with which address and payload. -/
structure SendRouteOut where
  http : HttpOut
  finalState : CacheState
  sendCalled : Bool
  sentPayload : Option (String × JSVal)
deriving DecidableEq, Repr

/-- Embeds POST /send-message (src/src/index.js lines 195 to 231 and the
identical src/unnamed/part_001 lines 208 to 244).  Not connected: 503.
A falsy number or message field: 400.  Otherwise the recipient is
normalized and the provider send invoked; its failure is caught and
surfaced as 500 with the failure detail.  A truthy non-string number makes
the includes call throw inside the try block, also caught as 500, with no
send performed. -/
def sendMessageRoute (s : CacheState) (number message : Option JSVal)
    (outcome : SendOutcome) : SendRouteOut :=
  if s.connected = false then
    ⟨⟨503, { error := some "WhatsApp não está conectado",
             details := some "Aguarde a conexão ser estabelecida" }⟩, s, false, none⟩
  else if !truthy number || !truthy message then
    ⟨⟨400, { error := some "Número e mensagem são obrigatórios" }⟩, s, false, none⟩
  else
    match number, message with
    | some (JSVal.jsStr n), some mv =>
        match outcome with
        | SendOutcome.ok =>
            ⟨⟨200, { success := some true,
                     message := some "Mensagem enviada com sucesso!" }⟩, s, true,
              some (formattedNumber n, mv)⟩
        | SendOutcome.fail d =>
            ⟨⟨500, { error := some "Erro ao enviar mensagem",
                     details := some d }⟩, s, true,
              some (formattedNumber n, mv)⟩
    | _, _ =>
        ⟨⟨500, { error := some "Erro ao enviar mensagem",
                 details := some "number.includes is not a function" }⟩, s,
          false, none⟩

/-! ### Client start guard of the promise variant, at interleaving granularity

The guard of src/unnamed/part_001 lines 91 to 101 reads clientInitialized,
issues client.initialize when it is unset, and sets the flag only after the
awaited start completes.  Each caller is therefore two atomic phases
separated by a suspension point: the check (which may issue a start) and the
completion (which sets the flag). -/

/-- Shared state of the start guard: the flag and how many provider start
calls have been issued. -/
structure InitState where
  clientInitialized : Bool
  initCount : Nat
deriving DecidableEq, Repr

/-- First phase of one caller: read the flag; when unset, issue a provider
start (counted) and report that a start is now pending for this caller. -/
def checkPhase (s : InitState) : InitState × Bool :=
  if s.clientInitialized then (s, false)
  else ({ s with initCount := s.initCount + 1 }, true)

/-- Second phase of one caller: when its start was pending, the awaited
start has completed and the flag is set. -/
def completePhase (s : InitState) (started : Bool) : InitState :=
  if started then { s with clientInitialized := true } else s

/-- Two concurrent callers: both run their check phase before either start
completes — the interleaving the single-threaded event loop produces when
the second request arrives while the first await is pending. -/
def concurrentInit (s : InitState) : InitState :=
  let p1 := checkPhase s
  let p2 := checkPhase p1.1
  completePhase (completePhase p2.1 p1.2) p2.2

/-- Two sequential callers: the second begins only after the first has
fully completed. -/
def sequentialInit (s : InitState) : InitState :=
  let p1 := checkPhase s
  let s2 := completePhase p1.1 p1.2
  let p2 := checkPhase s2
  completePhase p2.1 p2.2

/-! ### Claim theorems -/

/-- Claim C1: in the promise variant, a qrcode request made while the client
is not connected whose qr event does not arrive within 30 seconds (and whose
start routine does not itself fail) fails with the timeout error as HTTP 500,
the registered qr listener is removed, and the session stays disconnected. -/
theorem claim_C1_timeout (clientInitialized : Bool)
    (qrEvent : Option (Nat × String)) (now : Nat)
    (hq : ∀ t qr, qrEvent = some (t, qr) → 30000 ≤ t) :
    (whatsappQrcodeRoute001 clientInitialized false none qrEvent now).http.code = 500 ∧
    (whatsappQrcodeRoute001 clientInitialized false none qrEvent now).http.body.error =
      some "Timeout ao gerar QR Code" ∧
    (whatsappQrcodeRoute001 clientInitialized false none qrEvent now).listenerRemoved = true ∧
    (whatsappQrcodeRoute001 clientInitialized false none qrEvent now).connectedAfter = false := by
  cases qrEvent with
  | none =>
      cases clientInitialized <;>
        simp [whatsappQrcodeRoute001, generateQRCode, qrRace]
  | some p =>
      obtain ⟨t, qr⟩ := p
      have h30 : ¬ t < 30000 := by
        have := hq t qr rfl
        omega
      cases clientInitialized <;>
        simp [whatsappQrcodeRoute001, generateQRCode, qrRace, h30]

/-- Witness for C1 at a concrete state: flag set, disconnected, no qr event. -/
theorem claim_C1_timeout_witness :
    (whatsappQrcodeRoute001 true false none none 0).http.code = 500 ∧
    (whatsappQrcodeRoute001 true false none none 0).http.body.error =
      some "Timeout ao gerar QR Code" ∧
    (whatsappQrcodeRoute001 true false none none 0).listenerRemoved = true ∧
    (whatsappQrcodeRoute001 true false none none 0).connectedAfter = false :=
  claim_C1_timeout true none 0 (fun _ _ h => nomatch h)

/-- Counterexample to claim C2: from the fresh state, the event-loop
interleaving in which the second caller checks the flag while the first
await is pending issues two provider start calls, not exactly one. -/
theorem claim_C2_counterexample :
    (concurrentInit ⟨false, 0⟩).initCount = 2 ∧
    ¬ (concurrentInit ⟨false, 0⟩).initCount = 1 := by
  decide

/-- Amended claim C2: the flag gives single-flight only across completed
calls — two sequential callers issue exactly one provider start, while two
concurrent callers whose checks both precede the first completion each
issue a start. -/
theorem claim_C2_start_guard (s : InitState) (h : s.clientInitialized = false) :
    (sequentialInit s).initCount = s.initCount + 1 ∧
    (concurrentInit s).initCount = s.initCount + 2 := by
  simp [sequentialInit, concurrentInit, checkPhase, completePhase, h]

/-- Witness for the amended C2 at the fresh state. -/
theorem claim_C2_start_guard_witness :
    (sequentialInit ⟨false, 0⟩).initCount = 0 + 1 ∧
    (concurrentInit ⟨false, 0⟩).initCount = 0 + 2 :=
  claim_C2_start_guard ⟨false, 0⟩ rfl

/-- Counterexample to claim C3: in the caching variant a qrcode request made
while connected answers 200 with status connected, not a 400 failure. -/
theorem claim_C3_counterexample :
    (whatsappQrcodeRouteIdx ⟨none, none, true⟩ 1000).http.code = 200 ∧
    ¬ (whatsappQrcodeRouteIdx ⟨none, none, true⟩ 1000).http.code = 400 ∧
    (whatsappQrcodeRouteIdx ⟨none, none, true⟩ 1000).http.body.status =
      some "connected" := by
  decide

/-- Amended claim C3: while connected, the promise variant qrcode route
fails with 400 and the already-connected error, creating no pairing request;
the caching variant instead answers 200 with status connected, likewise
calling the provider in no way and leaving the state unchanged. -/
theorem claim_C3_already_connected (clientInitialized : Bool)
    (initFails : Option String) (qrEvent : Option (Nat × String)) (now1 : Nat)
    (s : CacheState) (now2 : Nat) (h : s.connected = true) :
    (whatsappQrcodeRoute001 clientInitialized true initFails qrEvent now1).http.code = 400 ∧
    (whatsappQrcodeRoute001 clientInitialized true initFails qrEvent now1).http.body.error =
      some "WhatsApp já está conectado" ∧
    (whatsappQrcodeRoute001 clientInitialized true initFails qrEvent now1).calledGenerate =
      false ∧
    (whatsappQrcodeRouteIdx s now2).http.code = 200 ∧
    (whatsappQrcodeRouteIdx s now2).http.body.status = some "connected" ∧
    (whatsappQrcodeRouteIdx s now2).initCalled = false ∧
    (whatsappQrcodeRouteIdx s now2).finalState = s := by
  simp [whatsappQrcodeRoute001, whatsappQrcodeRouteIdx, h]

/-- Witness for the amended C3 at concrete connected states. -/
theorem claim_C3_already_connected_witness :
    (whatsappQrcodeRoute001 true true none none 0).http.code = 400 ∧
    (whatsappQrcodeRoute001 true true none none 0).http.body.error =
      some "WhatsApp já está conectado" ∧
    (whatsappQrcodeRoute001 true true none none 0).calledGenerate = false ∧
    (whatsappQrcodeRouteIdx ⟨none, none, true⟩ 0).http.code = 200 ∧
    (whatsappQrcodeRouteIdx ⟨none, none, true⟩ 0).http.body.status =
      some "connected" ∧
    (whatsappQrcodeRouteIdx ⟨none, none, true⟩ 0).initCalled = false ∧
    (whatsappQrcodeRouteIdx ⟨none, none, true⟩ 0).finalState = ⟨none, none, true⟩ :=
  claim_C3_already_connected true none none 0 ⟨none, none, true⟩ 0 rfl

/-- With a valid cached artifact the caching variant qrcode route is the
identity on the state, performs no provider start, and serves the cached
code and expiry. -/
theorem routeIdx_valid_cache (s : CacheState) (now : Nat) (d : String) (e : Nat)
    (hconn : s.connected = false) (hd : s.qrCodeData = some d) (hd0 : d ≠ "")
    (he : s.qrCodeExpiration = some e) (he0 : e ≠ 0) (hle : now ≤ e) :
    whatsappQrcodeRouteIdx s now =
      ⟨⟨200, { status := some "disconnected", qrcode := some d,
               expiresAt := some e, lastUpdate := some now }⟩, s, false⟩ := by
  have hstale : staleCheck s now = false := by
    simp [staleCheck, jsFalsyStr, jsFalsyNum, jsNumVal, hd, he, hd0, he0,
      Nat.not_lt.mpr hle]
  simp [whatsappQrcodeRouteIdx, hconn, hstale, hd, he, jsNumVal]

/-- Claim C4: two qrcode requests of the caching variant made within the
validity window of the cached artifact, with no intervening events, serve
the identical code and expiry, and neither call starts a new handshake. -/
theorem claim_C4_idempotent (s : CacheState) (now1 now2 : Nat) (d : String)
    (e : Nat) (hconn : s.connected = false) (hd : s.qrCodeData = some d)
    (hd0 : d ≠ "") (he : s.qrCodeExpiration = some e) (he0 : e ≠ 0)
    (h1 : now1 ≤ e) (h2 : now2 ≤ e) :
    (whatsappQrcodeRouteIdx s now1).initCalled = false ∧
    (whatsappQrcodeRouteIdx ((whatsappQrcodeRouteIdx s now1).finalState) now2).initCalled =
      false ∧
    (whatsappQrcodeRouteIdx s now1).http.body.qrcode = some d ∧
    (whatsappQrcodeRouteIdx s now1).http.body.expiresAt = some e ∧
    (whatsappQrcodeRouteIdx ((whatsappQrcodeRouteIdx s now1).finalState) now2).http.body.qrcode =
      some d ∧
    (whatsappQrcodeRouteIdx ((whatsappQrcodeRouteIdx s now1).finalState) now2).http.body.expiresAt =
      some e := by
  rw [routeIdx_valid_cache s now1 d e hconn hd hd0 he he0 h1]
  rw [routeIdx_valid_cache s now2 d e hconn hd hd0 he he0 h2]
  simp

/-- Witness for C4 at a concrete cached artifact and two read times. -/
theorem claim_C4_idempotent_witness :
    (whatsappQrcodeRouteIdx ⟨some "ABC", some 90000, false⟩ 1000).initCalled = false ∧
    (whatsappQrcodeRouteIdx
      ((whatsappQrcodeRouteIdx ⟨some "ABC", some 90000, false⟩ 1000).finalState)
      2000).initCalled = false ∧
    (whatsappQrcodeRouteIdx ⟨some "ABC", some 90000, false⟩ 1000).http.body.qrcode =
      some "ABC" ∧
    (whatsappQrcodeRouteIdx ⟨some "ABC", some 90000, false⟩ 1000).http.body.expiresAt =
      some 90000 ∧
    (whatsappQrcodeRouteIdx
      ((whatsappQrcodeRouteIdx ⟨some "ABC", some 90000, false⟩ 1000).finalState)
      2000).http.body.qrcode = some "ABC" ∧
    (whatsappQrcodeRouteIdx
      ((whatsappQrcodeRouteIdx ⟨some "ABC", some 90000, false⟩ 1000).finalState)
      2000).http.body.expiresAt = some 90000 :=
  claim_C4_idempotent ⟨some "ABC", some 90000, false⟩ 1000 2000 "ABC" 90000
    rfl rfl (by decide) rfl (by decide) (by decide) (by decide)

/-- Claim C5: an expired cached artifact is treated as absent by the cache
read of the caching variant qrcode route — the stale code is never served,
the cache is cleared, and the client start routine runs again. -/
theorem claim_C5_expiry (s : CacheState) (now e : Nat)
    (hconn : s.connected = false) (he : s.qrCodeExpiration = some e)
    (hpast : e < now) :
    staleCheck s now = true ∧
    (whatsappQrcodeRouteIdx s now).http.body.qrcode = none ∧
    (whatsappQrcodeRouteIdx s now).finalState.qrCodeData = none ∧
    (whatsappQrcodeRouteIdx s now).finalState.qrCodeExpiration = none ∧
    (whatsappQrcodeRouteIdx s now).initCalled = true := by
  have hstale : staleCheck s now = true := by
    simp [staleCheck, jsNumVal, he, hpast]
  refine ⟨hstale, ?_⟩
  simp [whatsappQrcodeRouteIdx, hconn, hstale]

/-- Witness for C5: artifact expired at 90000 read at 90001. -/
theorem claim_C5_expiry_witness :
    staleCheck ⟨some "ABC", some 90000, false⟩ 90001 = true ∧
    (whatsappQrcodeRouteIdx ⟨some "ABC", some 90000, false⟩ 90001).http.body.qrcode =
      none ∧
    (whatsappQrcodeRouteIdx ⟨some "ABC", some 90000, false⟩ 90001).finalState.qrCodeData =
      none ∧
    (whatsappQrcodeRouteIdx ⟨some "ABC", some 90000, false⟩ 90001).finalState.qrCodeExpiration =
      none ∧
    (whatsappQrcodeRouteIdx ⟨some "ABC", some 90000, false⟩ 90001).initCalled = true :=
  claim_C5_expiry ⟨some "ABC", some 90000, false⟩ 90001 90000 rfl rfl
    (by decide)

/-- Counterexample to claim C6: a successful qrcode response of the promise
variant has status connecting and the code but carries no expiresAt key. -/
theorem claim_C6_counterexample :
    (whatsappQrcodeRoute001 true false none (some (1000, "ABC")) 5000).http.code = 200 ∧
    (whatsappQrcodeRoute001 true false none (some (1000, "ABC")) 5000).http.body.status =
      some "connecting" ∧
    (whatsappQrcodeRoute001 true false none (some (1000, "ABC")) 5000).http.body.qrcode =
      some "ABC" ∧
    (whatsappQrcodeRoute001 true false none (some (1000, "ABC")) 5000).http.body.expiresAt =
      none := by
  decide

/-- Amended claim C6: every qr event of the caching variant caches an
artifact with expiry equal to its issue time plus 90 seconds, while a
successful qrcode response of the promise variant has status connecting and
carries the code but no expiresAt field. -/
theorem claim_C6_ttl_invariant (s1 : CacheState) (qr : String) (now1 : Nat)
    (clientInitialized : Bool) (t now2 : Nat) (qr2 : String) (ht : t < 30000) :
    (qrHandler s1 qr now1).qrCodeExpiration = some (now1 + 90000) ∧
    (qrHandler s1 qr now1).qrCodeData = some qr ∧
    (whatsappQrcodeRoute001 clientInitialized false none (some (t, qr2)) now2).http.code =
      200 ∧
    (whatsappQrcodeRoute001 clientInitialized false none (some (t, qr2)) now2).http.body.status =
      some "connecting" ∧
    (whatsappQrcodeRoute001 clientInitialized false none (some (t, qr2)) now2).http.body.qrcode =
      some qr2 ∧
    (whatsappQrcodeRoute001 clientInitialized false none (some (t, qr2)) now2).http.body.expiresAt =
      none := by
  cases clientInitialized <;>
    simp [qrHandler, QR_CODE_EXPIRATION_TIME, whatsappQrcodeRoute001,
      generateQRCode, qrRace, ht]

/-- Witness for the amended C6 at a concrete event and request. -/
theorem claim_C6_ttl_invariant_witness :
    (qrHandler ⟨none, none, false⟩ "XYZ" 500).qrCodeExpiration = some (500 + 90000) ∧
    (qrHandler ⟨none, none, false⟩ "XYZ" 500).qrCodeData = some "XYZ" ∧
    (whatsappQrcodeRoute001 true false none (some (1000, "ABC")) 5000).http.code = 200 ∧
    (whatsappQrcodeRoute001 true false none (some (1000, "ABC")) 5000).http.body.status =
      some "connecting" ∧
    (whatsappQrcodeRoute001 true false none (some (1000, "ABC")) 5000).http.body.qrcode =
      some "ABC" ∧
    (whatsappQrcodeRoute001 true false none (some (1000, "ABC")) 5000).http.body.expiresAt =
      none :=
  claim_C6_ttl_invariant ⟨none, none, false⟩ "XYZ" 500 true 1000 5000 "ABC"
    (by decide)

/-- Claim C7: a send-message request made while the client is not connected
fails with 503 and the not-connected error, no provider send is invoked,
and the state is untouched. -/
theorem claim_C7_not_connected (s : CacheState) (number message : Option JSVal)
    (oc : SendOutcome) (h : s.connected = false) :
    (sendMessageRoute s number message oc).http.code = 503 ∧
    (sendMessageRoute s number message oc).http.body.error =
      some "WhatsApp não está conectado" ∧
    (sendMessageRoute s number message oc).sendCalled = false ∧
    (sendMessageRoute s number message oc).finalState = s := by
  simp [sendMessageRoute, h]

/-- Witness for C7 at a concrete disconnected state. -/
theorem claim_C7_not_connected_witness :
    (sendMessageRoute ⟨none, none, false⟩ (some (JSVal.jsStr "5511999999999"))
      (some (JSVal.jsStr "hi")) SendOutcome.ok).http.code = 503 ∧
    (sendMessageRoute ⟨none, none, false⟩ (some (JSVal.jsStr "5511999999999"))
      (some (JSVal.jsStr "hi")) SendOutcome.ok).http.body.error =
      some "WhatsApp não está conectado" ∧
    (sendMessageRoute ⟨none, none, false⟩ (some (JSVal.jsStr "5511999999999"))
      (some (JSVal.jsStr "hi")) SendOutcome.ok).sendCalled = false ∧
    (sendMessageRoute ⟨none, none, false⟩ (some (JSVal.jsStr "5511999999999"))
      (some (JSVal.jsStr "hi")) SendOutcome.ok).finalState = ⟨none, none, false⟩ :=
  claim_C7_not_connected ⟨none, none, false⟩ (some (JSVal.jsStr "5511999999999"))
    (some (JSVal.jsStr "hi")) SendOutcome.ok rfl

/-- Claim C8: for every nonempty recipient string, the send route invokes
the provider send with the suffix appended when the recipient does not
contain it and with the recipient unchanged when it does; the message body
is passed through untouched. -/
theorem claim_C8_normalization (s : CacheState) (n m : String)
    (oc : SendOutcome) (hc : s.connected = true) (hn : n ≠ "") (hm : m ≠ "") :
    (jsIncludes n "@c.us" = false →
      (sendMessageRoute s (some (JSVal.jsStr n)) (some (JSVal.jsStr m)) oc).sentPayload =
        some (n ++ "@c.us", JSVal.jsStr m)) ∧
    (jsIncludes n "@c.us" = true →
      (sendMessageRoute s (some (JSVal.jsStr n)) (some (JSVal.jsStr m)) oc).sentPayload =
        some (n, JSVal.jsStr m)) ∧
    (sendMessageRoute s (some (JSVal.jsStr n)) (some (JSVal.jsStr m)) oc).sendCalled =
      true := by
  cases oc <;>
    simp [sendMessageRoute, truthy, hc, hn, hm, formattedNumber] <;>
    refine ⟨fun h => by simp [h], fun h => by simp [h]⟩

/-- Witness for C8: the scenario recipient gains the suffix and the provider
send is invoked with the normalized address. -/
theorem claim_C8_normalization_witness :
    (sendMessageRoute ⟨none, none, true⟩ (some (JSVal.jsStr "5511999999999"))
      (some (JSVal.jsStr "hi")) SendOutcome.ok).sentPayload =
      some ("5511999999999@c.us", JSVal.jsStr "hi") := by
  have h := (claim_C8_normalization ⟨none, none, true⟩ "5511999999999" "hi"
    SendOutcome.ok rfl (by decide) (by decide)).1 (by decide)
  rw [h]
  decide

/-- Claim C9: a provider send failure surfaces as 500 with the failure
detail while the session state and the cached artifact are exactly as they
were before the call. -/
theorem claim_C9_send_failure_frame (s : CacheState) (n m d : String)
    (hc : s.connected = true) (hn : n ≠ "") (hm : m ≠ "") :
    (sendMessageRoute s (some (JSVal.jsStr n)) (some (JSVal.jsStr m))
      (SendOutcome.fail d)).http.code = 500 ∧
    (sendMessageRoute s (some (JSVal.jsStr n)) (some (JSVal.jsStr m))
      (SendOutcome.fail d)).http.body.error = some "Erro ao enviar mensagem" ∧
    (sendMessageRoute s (some (JSVal.jsStr n)) (some (JSVal.jsStr m))
      (SendOutcome.fail d)).http.body.details = some d ∧
    (sendMessageRoute s (some (JSVal.jsStr n)) (some (JSVal.jsStr m))
      (SendOutcome.fail d)).finalState = s := by
  simp [sendMessageRoute, truthy, hc, hn, hm]

/-- Witness for C9 at a concrete connected state with a cached artifact. -/
theorem claim_C9_send_failure_frame_witness :
    (sendMessageRoute ⟨some "ABC", some 90000, true⟩
      (some (JSVal.jsStr "5511999999999")) (some (JSVal.jsStr "hi"))
      (SendOutcome.fail "boom")).http.code = 500 ∧
    (sendMessageRoute ⟨some "ABC", some 90000, true⟩
      (some (JSVal.jsStr "5511999999999")) (some (JSVal.jsStr "hi"))
      (SendOutcome.fail "boom")).http.body.error =
      some "Erro ao enviar mensagem" ∧
    (sendMessageRoute ⟨some "ABC", some 90000, true⟩
      (some (JSVal.jsStr "5511999999999")) (some (JSVal.jsStr "hi"))
      (SendOutcome.fail "boom")).http.body.details = some "boom" ∧
    (sendMessageRoute ⟨some "ABC", some 90000, true⟩
      (some (JSVal.jsStr "5511999999999")) (some (JSVal.jsStr "hi"))
      (SendOutcome.fail "boom")).finalState = ⟨some "ABC", some 90000, true⟩ :=
  claim_C9_send_failure_frame ⟨some "ABC", some 90000, true⟩ "5511999999999"
    "hi" "boom" rfl (by decide) (by decide)

/-- Claim C10: while connected, a present but falsy number field yields the
same 400 required-fields response as an absent number, and a present but
falsy message field yields the same response as an absent message; no
provider send is invoked in any of these cases. -/
theorem claim_C10_falsy_fields (s : CacheState) (v w : JSVal)
    (m n : Option JSVal) (hc : s.connected = true)
    (hv : truthy (some v) = false) (hw : truthy (some w) = false) :
    (sendMessageRoute s (some v) m SendOutcome.ok).http =
      (sendMessageRoute s none m SendOutcome.ok).http ∧
    (sendMessageRoute s (some v) m SendOutcome.ok).http.code = 400 ∧
    (sendMessageRoute s (some v) m SendOutcome.ok).http.body.error =
      some "Número e mensagem são obrigatórios" ∧
    (sendMessageRoute s (some v) m SendOutcome.ok).sendCalled = false ∧
    (sendMessageRoute s none m SendOutcome.ok).sendCalled = false ∧
    (sendMessageRoute s n (some w) SendOutcome.ok).http =
      (sendMessageRoute s n none SendOutcome.ok).http ∧
    (sendMessageRoute s n (some w) SendOutcome.ok).http.code = 400 ∧
    (sendMessageRoute s n (some w) SendOutcome.ok).sendCalled = false := by
  simp [sendMessageRoute, hc, hv, hw, show truthy none = false from rfl]

/-- Witness for C10: empty-string number and message fields at a concrete
connected state. -/
theorem claim_C10_falsy_fields_witness :
    (sendMessageRoute ⟨none, none, true⟩ (some (JSVal.jsStr ""))
      (some (JSVal.jsStr "hi")) SendOutcome.ok).http =
      (sendMessageRoute ⟨none, none, true⟩ none (some (JSVal.jsStr "hi"))
        SendOutcome.ok).http ∧
    (sendMessageRoute ⟨none, none, true⟩ (some (JSVal.jsStr ""))
      (some (JSVal.jsStr "hi")) SendOutcome.ok).http.code = 400 ∧
    (sendMessageRoute ⟨none, none, true⟩ (some (JSVal.jsStr ""))
      (some (JSVal.jsStr "hi")) SendOutcome.ok).http.body.error =
      some "Número e mensagem são obrigatórios" ∧
    (sendMessageRoute ⟨none, none, true⟩ (some (JSVal.jsStr ""))
      (some (JSVal.jsStr "hi")) SendOutcome.ok).sendCalled = false ∧
    (sendMessageRoute ⟨none, none, true⟩ none (some (JSVal.jsStr "hi"))
      SendOutcome.ok).sendCalled = false ∧
    (sendMessageRoute ⟨none, none, true⟩ (some (JSVal.jsStr "5511999999999"))
      (some (JSVal.jsStr "")) SendOutcome.ok).http =
      (sendMessageRoute ⟨none, none, true⟩ (some (JSVal.jsStr "5511999999999"))
        none SendOutcome.ok).http ∧
    (sendMessageRoute ⟨none, none, true⟩ (some (JSVal.jsStr "5511999999999"))
      (some (JSVal.jsStr "")) SendOutcome.ok).http.code = 400 ∧
    (sendMessageRoute ⟨none, none, true⟩ (some (JSVal.jsStr "5511999999999"))
      (some (JSVal.jsStr "")) SendOutcome.ok).sendCalled = false :=
  claim_C10_falsy_fields ⟨none, none, true⟩ (JSVal.jsStr "") (JSVal.jsStr "")
    (some (JSVal.jsStr "hi")) (some (JSVal.jsStr "5511999999999")) rfl
    (by decide) (by decide)
